import Mathlib

/-!
A Lean model of the per-frame render orchestration in
`src/imgui-dx11/src/render_engine.rs` (`RenderEngine::render`,
`RenderEngine::present`), together with proofs of its frame-lifecycle
properties: pipeline-state snapshot/restore, surface reconfiguration,
degenerate-display-size rejection, draw-command interpretation
(offset accumulation, clip-rect translation, render-state reset), and
the fire-and-forget present contract.

The collaborators (`StateBackup`, `DeviceAndSwapChain`, `ShaderProgram`,
`Buffers`, `Texture`, the imgui toolkit) live in modules outside the
sources; their effects on the device context are modelled from the
spec's interface contracts, while all control flow, arithmetic and
sequencing below is translated directly from `render_engine.rs`.
-/

namespace ImguiDx11

/-- Exact stand-in for the `f32` scalars of the code (display position/size and
clip-rect coordinates): an unnormalized fraction `num / den`. All values the
code manipulates (window sizes cast from `i32`, imgui coordinates) are exact
in this representation, and the operations used by `render` (subtraction,
addition, comparison with zero, truncating cast to `i32`) are exact on it. -/
structure Scalar where
  num : Int
  den : Nat
deriving DecidableEq, Repr

/-- The `as f32` cast applied to window-rectangle differences (exact). -/
def Scalar.ofInt (i : Int) : Scalar := ⟨i, 1⟩

instance : OfNat Scalar 0 := ⟨⟨0, 1⟩⟩

/-- Subtraction of exact scalars (`cx - x` etc. in the code). -/
def Scalar.sub (a b : Scalar) : Scalar :=
  ⟨a.num * (b.den : Int) - b.num * (a.den : Int), a.den * b.den⟩

/-- Addition of exact scalars (`x + width` etc. in the code). -/
def Scalar.add (a b : Scalar) : Scalar :=
  ⟨a.num * (b.den : Int) + b.num * (a.den : Int), a.den * b.den⟩

instance : LE Scalar := ⟨fun a b => a.num * (b.den : Int) ≤ b.num * (a.den : Int)⟩

instance (a b : Scalar) : Decidable (a ≤ b) :=
  inferInstanceAs (Decidable (a.num * (b.den : Int) ≤ b.num * (a.den : Int)))

/-- The `as i32` cast of the code applied to an in-range scalar: truncation
toward zero (`Int.tdiv` is T-division, which rounds toward zero). -/
def Scalar.trunc (a : Scalar) : Int := Int.tdiv a.num (a.den : Int)

/-- `windows::Win32::Foundation::RECT` (four `i32` coordinates). -/
structure Rect where
  left : Int
  top : Int
  right : Int
  bottom : Int
deriving DecidableEq, Repr

/-- A clip rectangle `[cx, cy, cw, ch]` as carried by `DrawCmdParams::clip_rect`. -/
structure ClipRect where
  cx : Scalar
  cy : Scalar
  cw : Scalar
  ch : Scalar
deriving DecidableEq, Repr

/-- `imgui::DrawCmd`: the three draw-command variants interpreted by the loop in
`render_engine.rs` lines 122-156. The raw callback's function pointer and
opaque data are modelled by an opaque identifier. -/
inductive DrawCmd where
  | Elements (count : Nat) (clip_rect : ClipRect)
  | ResetRenderState
  | RawCallback (cb : Nat)
deriving DecidableEq, Repr

/-- One imgui draw list: a flat vertex buffer, a flat index buffer and an
ordered command sequence. Vertex/index entries are opaque to the orchestrator
and modelled as numbers. -/
structure DrawList where
  vtx_buffer : List Nat
  idx_buffer : List Nat
  commands : List DrawCmd
deriving DecidableEq, Repr

/-- `imgui::DrawData` as consumed by `render`: `display_pos`, `display_size`
and the ordered draw lists. -/
structure DrawData where
  display_pos : Scalar × Scalar
  display_size : Scalar × Scalar
  draw_lists : List DrawList
deriving DecidableEq, Repr

/-- Modelled from the spec: the device-context pipeline state that
`StateBackup` (in `state_backup.rs`, not among the sources) captures and
restores as an opaque unit - viewport, render target, shader/fixed-function
state, input-assembler bindings, constant/resource bindings and scissor.
Each field records the binding the orchestrator can touch. -/
structure PipelineState where
  viewport : Option Rect
  render_target : Bool
  shader_state : Bool
  vtx_buffer_bound : Bool
  idx_buffer_format : Option Nat
  topology : Option Nat
  vs_constant_buffers : Bool
  ps_shader_resources : Bool
  scissor : Option (Int × Int × Int × Int)
deriving DecidableEq, Repr

/-- The GPU-resident contents owned by `Buffers` (`buffers.rs`): the
constant buffer written by `set_constant_buffer` and the whole-frame
vertex/index uploads written by `set_buffers`. -/
structure BuffersState where
  mtx_buffer : Option (Scalar × Scalar × Scalar × Scalar)
  vtx : List Nat
  idx : List Nat
deriving DecidableEq, Repr

/-- The orchestrator state relevant to a frame: the toolkit's configured
display size (`ctx.io.display_size`), the device-context pipeline state and
the geometry-buffer contents. -/
structure RenderEngine where
  display_size : Scalar × Scalar
  pipeline : PipelineState
  buffers : BuffersState
deriving DecidableEq, Repr

/-- Observable device/toolkit calls issued during `render`/`present`, in
program order. -/
inductive Event where
  | backup
  | getWindowRect (r : Option Rect)
  | setDisplaySize (w h : Scalar)
  | setViewport (r : Rect)
  | setRenderTarget
  | setShaderState
  | buildFrame
  | setConstantBuffer (l t r b : Scalar)
  | setBuffers
  | iaSetVertexBuffers (stride : Nat)
  | iaSetIndexBuffer (format : Nat)
  | iaSetPrimitiveTopology (t : Nat)
  | vsSetConstantBuffers
  | psSetShaderResources
  | rsSetScissorRects (l t r b : Int)
  | setShaderResources
  | drawIndexed (count idxOff vtxOff : Nat)
  | setupState
  | rawCallback (cb : Nat)
  | restoreBackup
  | presentFlip (sync flags : Nat)
  | logPresentError
deriving DecidableEq, Repr

/-- Modelled from the spec: `StateBackup::backup` (in `state_backup.rs`, not
among the sources) captures the full device pipeline state. -/
def StateBackup.backup (p : PipelineState) : PipelineState := p

/-- Modelled from the spec: `StateBackup::restore` replaces the device
pipeline state with the captured snapshot, exactly. -/
def StateBackup.restore (snapshot _current : PipelineState) : PipelineState := snapshot

/-- Modelled from the spec: `ShaderProgram::set_state` (in
`shader_program.rs`, not among the sources) installs the overlay's shaders
and fixed-function state on the device context. -/
def shaderProgramSetState (p : PipelineState) : PipelineState :=
  { p with shader_state := true }

/-- `D3D11_PRIMITIVE_TOPOLOGY_TRIANGLELIST` (= 4). -/
def triangleListTopology : Nat := 4

/-- `std::mem::size_of::<imgui::DrawVert>()`: two `f32` position components,
two `f32` UV components and a packed 32-bit color, 20 bytes. -/
def drawVertSize : Nat := 20

/-- `std::mem::size_of::<imgui::DrawIdx>()`: imgui's index type is `u16`. -/
def drawIdxSize : Nat := 2

/-- Modelled from the spec: `DeviceAndSwapChain::setup_state(draw_data)` (in
`device_and_swapchain.rs`, not among the sources) reinstalls the surface's
default render target and viewport for the given draw data, without
re-querying the window rectangle. -/
def setupStateEffect (dd : DrawData) (p : PipelineState) : PipelineState :=
  { p with
    render_target := true,
    viewport := some
      { left := 0, top := 0,
        right := dd.display_size.1.trunc, bottom := dd.display_size.2.trunc } }

/-- Surface reconfiguration, `render_engine.rs` lines 67-76: if the window
rectangle is available, set the toolkit display size to its width/height,
normalize the rectangle to origin zero, and set the device viewport and
render target from it; otherwise do nothing beyond the query. -/
def reconfigureSurface (e : RenderEngine) (windowRect : Option Rect) :
    RenderEngine × List Event :=
  match windowRect with
  | some rect =>
      let w : Int := rect.right - rect.left
      let h : Int := rect.bottom - rect.top
      let rect' : Rect := { left := 0, top := 0, right := w, bottom := h }
      ({ e with
          display_size := (Scalar.ofInt w, Scalar.ofInt h),
          pipeline := { e.pipeline with viewport := some rect', render_target := true } },
       [Event.getWindowRect (some rect),
        Event.setDisplaySize (Scalar.ofInt w) (Scalar.ofInt h),
        Event.setViewport rect', Event.setRenderTarget])
  | none => (e, [Event.getWindowRect none])

/-- The running interpretation state of the draw-command loop,
`render_engine.rs` lines 118-119: the device pipeline state plus the
cumulative vertex and index offsets. -/
structure InterpState where
  pipeline : PipelineState
  vtxOff : Nat
  idxOff : Nat
deriving DecidableEq, Repr

/-- Interpretation of one draw command, `render_engine.rs` lines 124-153:
`Elements` translates the clip rectangle by the display position (truncating
to `i32`), sets the scissor, rebinds the font texture's shader-resource view,
issues an indexed draw at the current offsets and advances the index offset
by `count`; `ResetRenderState` reinstalls the surface's default state and the
shader program's state; `RawCallback` runs the user callback. -/
def interpCmd (dd : DrawData) (s : InterpState) : DrawCmd → InterpState × List Event
  | DrawCmd.Elements count clip =>
      let l : Int := (clip.cx.sub dd.display_pos.1).trunc
      let t : Int := (clip.cy.sub dd.display_pos.2).trunc
      let r : Int := (clip.cw.sub dd.display_pos.1).trunc
      let b : Int := (clip.ch.sub dd.display_pos.2).trunc
      ({ s with
          pipeline := { s.pipeline with scissor := some (l, t, r, b), ps_shader_resources := true },
          idxOff := s.idxOff + count },
       [Event.rsSetScissorRects l t r b, Event.setShaderResources,
        Event.drawIndexed count s.idxOff s.vtxOff])
  | DrawCmd.ResetRenderState =>
      ({ s with pipeline := shaderProgramSetState (setupStateEffect dd s.pipeline) },
       [Event.setupState, Event.setShaderState])
  | DrawCmd.RawCallback cb => (s, [Event.rawCallback cb])

/-- Interpretation of a command sequence in order. -/
def interpCmds (dd : DrawData) (s : InterpState) : List DrawCmd → InterpState × List Event
  | [] => (s, [])
  | c :: cs =>
      let r1 := interpCmd dd s c
      let r2 := interpCmds dd r1.1 cs
      (r2.1, r1.2 ++ r2.2)

/-- Interpretation of one draw list, `render_engine.rs` lines 122-156: run its
commands, then advance the vertex offset by the list's vertex count. -/
def interpList (dd : DrawData) (s : InterpState) (cl : DrawList) : InterpState × List Event :=
  let r := interpCmds dd s cl.commands
  ({ r.1 with vtxOff := r.1.vtxOff + cl.vtx_buffer.length }, r.2)

/-- Interpretation of the frame's draw lists in order. -/
def interpLists (dd : DrawData) (s : InterpState) : List DrawList → InterpState × List Event
  | [] => (s, [])
  | cl :: cls =>
      let r1 := interpList dd s cl
      let r2 := interpLists dd r1.1 cls
      (r2.1, r1.2 ++ r2.2)

/-- The geometry-upload and device-binding events of `render_engine.rs`
lines 94-116: constant-buffer write, whole-frame vertex/index upload, vertex
and index buffer binding, topology, vertex-stage constant buffer and
pixel-stage font texture. -/
def bindEvents (dd : DrawData) : List Event :=
  [Event.setConstantBuffer dd.display_pos.1 dd.display_pos.2
      (dd.display_pos.1.add dd.display_size.1) (dd.display_pos.2.add dd.display_size.2),
   Event.setBuffers,
   Event.iaSetVertexBuffers drawVertSize,
   Event.iaSetIndexBuffer (if drawIdxSize = 2 then 16 else 32),
   Event.iaSetPrimitiveTopology triangleListTopology,
   Event.vsSetConstantBuffers,
   Event.psSetShaderResources]

/-- The state effects of `render_engine.rs` lines 91-156 (everything inside
the `unsafe` block): the buffer uploads, the device bindings and the
draw-command interpretation loop run from zero offsets. -/
def drawPhase (e : RenderEngine) (dd : DrawData) : RenderEngine × List Event :=
  let b1 : BuffersState :=
    { e.buffers with
      mtx_buffer := some
        (dd.display_pos.1, dd.display_pos.2,
         dd.display_pos.1.add dd.display_size.1, dd.display_pos.2.add dd.display_size.2),
      vtx := (dd.draw_lists.map DrawList.vtx_buffer).flatten,
      idx := (dd.draw_lists.map DrawList.idx_buffer).flatten }
  let p3 : PipelineState :=
    { e.pipeline with
      vtx_buffer_bound := true,
      idx_buffer_format := some (if drawIdxSize = 2 then 16 else 32),
      topology := some triangleListTopology,
      vs_constant_buffers := true,
      ps_shader_resources := true }
  let r := interpLists dd { pipeline := p3, vtxOff := 0, idxOff := 0 } dd.draw_lists
  ({ e with buffers := b1, pipeline := r.1.pipeline }, bindEvents dd ++ r.2)

/-- `RenderEngine::render`, `render_engine.rs` lines 63-167. The window
rectangle reported by `DeviceAndSwapChain::get_window_rect` and the draw data
produced by the `buildFrame` callback's frame are the call's environment.
Returns the `Result`, the engine state after the call and the event trace. -/
def render (e : RenderEngine) (windowRect : Option Rect) (dd : DrawData) :
    Except String Unit × RenderEngine × List Event :=
  let state_backup := StateBackup.backup e.pipeline
  let r1 := reconfigureSurface e windowRect
  let e2 : RenderEngine := { r1.1 with pipeline := shaderProgramSetState r1.1.pipeline }
  let evHead : List Event := Event.backup :: r1.2 ++ [Event.setShaderState, Event.buildFrame]
  if dd.display_size.1 ≤ 0 ∧ dd.display_size.2 ≤ 0 then
    (Except.error "Insufficient display size", e2, evHead)
  else
    let r2 := drawPhase e2 dd
    let eFinal : RenderEngine :=
      { r2.1 with pipeline := StateBackup.restore state_backup r2.1.pipeline }
    (Except.ok (), eFinal, evHead ++ r2.2 ++ [Event.restoreBackup])

/-- `RenderEngine::present`, `render_engine.rs` lines 169-173: flip the swap
chain with sync interval 1 and flags 0; the outcome of the underlying
`Present` call is the environment. A failure is logged and not propagated. -/
def present (presentResult : Except String Unit) : Unit × List Event :=
  match presentResult with
  | Except.ok _ => ((), [Event.presentFlip 1 0])
  | Except.error _ => ((), [Event.presentFlip 1 0, Event.logPresentError])

/-- The amount an `Elements` command advances the index offset by; the other
two variants leave it unchanged. -/
def cmdIdxAdvance : DrawCmd → Nat
  | DrawCmd.Elements count _ => count
  | DrawCmd.ResetRenderState => 0
  | DrawCmd.RawCallback _ => 0

/-- The total index-offset advance of one draw list: the sum of its
`Elements` counts. -/
def listIdxAdvance (cl : DrawList) : Nat := (cl.commands.map cmdIdxAdvance).sum

theorem interpCmd_vtxOff (dd : DrawData) (s : InterpState) (c : DrawCmd) :
    (interpCmd dd s c).1.vtxOff = s.vtxOff := by
  cases c <;> rfl

theorem interpCmd_idxOff (dd : DrawData) (s : InterpState) (c : DrawCmd) :
    (interpCmd dd s c).1.idxOff = s.idxOff + cmdIdxAdvance c := by
  cases c <;> simp [interpCmd, cmdIdxAdvance]

theorem interpCmds_append (dd : DrawData) (s : InterpState) (cs1 cs2 : List DrawCmd) :
    interpCmds dd s (cs1 ++ cs2) =
      ((interpCmds dd (interpCmds dd s cs1).1 cs2).1,
       (interpCmds dd s cs1).2 ++ (interpCmds dd (interpCmds dd s cs1).1 cs2).2) := by
  induction cs1 generalizing s with
  | nil => simp [interpCmds]
  | cons c cs ih => simp [interpCmds, ih, List.append_assoc]

theorem interpCmds_vtxOff (dd : DrawData) (s : InterpState) (cs : List DrawCmd) :
    (interpCmds dd s cs).1.vtxOff = s.vtxOff := by
  induction cs generalizing s with
  | nil => rfl
  | cons c cs ih => simp [interpCmds, ih, interpCmd_vtxOff]

theorem interpCmds_idxOff (dd : DrawData) (s : InterpState) (cs : List DrawCmd) :
    (interpCmds dd s cs).1.idxOff = s.idxOff + (cs.map cmdIdxAdvance).sum := by
  induction cs generalizing s with
  | nil => simp [interpCmds]
  | cons c cs ih => simp [interpCmds, ih, interpCmd_idxOff, Nat.add_assoc]

theorem interpList_vtxOff (dd : DrawData) (s : InterpState) (cl : DrawList) :
    (interpList dd s cl).1.vtxOff = s.vtxOff + cl.vtx_buffer.length := by
  simp [interpList, interpCmds_vtxOff]

theorem interpList_idxOff (dd : DrawData) (s : InterpState) (cl : DrawList) :
    (interpList dd s cl).1.idxOff = s.idxOff + listIdxAdvance cl := by
  simp [interpList, interpCmds_idxOff, listIdxAdvance]

theorem interpLists_append (dd : DrawData) (s : InterpState) (ls1 ls2 : List DrawList) :
    interpLists dd s (ls1 ++ ls2) =
      ((interpLists dd (interpLists dd s ls1).1 ls2).1,
       (interpLists dd s ls1).2 ++ (interpLists dd (interpLists dd s ls1).1 ls2).2) := by
  induction ls1 generalizing s with
  | nil => simp [interpLists]
  | cons cl ls ih => simp [interpLists, ih, List.append_assoc]

theorem interpLists_vtxOff (dd : DrawData) (s : InterpState) (ls : List DrawList) :
    (interpLists dd s ls).1.vtxOff
      = s.vtxOff + (ls.map fun cl => cl.vtx_buffer.length).sum := by
  induction ls generalizing s with
  | nil => simp [interpLists]
  | cons cl ls ih => simp [interpLists, ih, interpList_vtxOff, Nat.add_assoc]

theorem interpLists_idxOff (dd : DrawData) (s : InterpState) (ls : List DrawList) :
    (interpLists dd s ls).1.idxOff = s.idxOff + (ls.map listIdxAdvance).sum := by
  induction ls generalizing s with
  | nil => simp [interpLists]
  | cons cl ls ih => simp [interpLists, ih, interpList_idxOff, Nat.add_assoc]

/-- Events that the draw-command interpretation loop can emit. -/
def isInterpEvent : Event → Bool
  | Event.setupState => true
  | Event.setShaderState => true
  | Event.rsSetScissorRects _ _ _ _ => true
  | Event.setShaderResources => true
  | Event.drawIndexed _ _ _ => true
  | Event.rawCallback _ => true
  | _ => false

/-- Indexed-draw events (`ID3D11DeviceContext::DrawIndexed`). -/
def isDrawIndexedEvent : Event → Bool
  | Event.drawIndexed _ _ _ => true
  | _ => false

/-- Invocations of the frame-building callback. -/
def isBuildFrameEvent : Event → Bool
  | Event.buildFrame => true
  | _ => false

/-- Surface-reconfiguration events (display size, viewport, render target),
emitted only by the window-rectangle step of `render`. -/
def isReconfigEvent : Event → Bool
  | Event.setDisplaySize _ _ => true
  | Event.setViewport _ => true
  | Event.setRenderTarget => true
  | _ => false

/-- Geometry uploads, vertex/index/constant/texture bindings and draws: all
the effects of `render_engine.rs` lines 91-156. -/
def isGeometryEvent : Event → Bool
  | Event.setConstantBuffer _ _ _ _ => true
  | Event.setBuffers => true
  | Event.iaSetVertexBuffers _ => true
  | Event.iaSetIndexBuffer _ => true
  | Event.iaSetPrimitiveTopology _ => true
  | Event.vsSetConstantBuffers => true
  | Event.psSetShaderResources => true
  | Event.rsSetScissorRects _ _ _ _ => true
  | Event.setShaderResources => true
  | Event.drawIndexed _ _ _ => true
  | _ => false

/-- Snapshot-restore events (`StateBackup::restore`). -/
def isRestoreEvent : Event → Bool
  | Event.restoreBackup => true
  | _ => false

/-- Present-failure log events. -/
def isLogErrorEvent : Event → Bool
  | Event.logPresentError => true
  | _ => false

theorem interpCmd_events_interp (dd : DrawData) (s : InterpState) (c : DrawCmd) :
    ∀ ev ∈ (interpCmd dd s c).2, isInterpEvent ev = true := by
  cases c <;> simp [interpCmd, isInterpEvent]

theorem interpCmds_events_interp (dd : DrawData) (s : InterpState) (cs : List DrawCmd) :
    ∀ ev ∈ (interpCmds dd s cs).2, isInterpEvent ev = true := by
  induction cs generalizing s with
  | nil => intro ev hev; simp [interpCmds] at hev
  | cons c cs ih =>
      intro ev hev
      simp only [interpCmds, List.mem_append] at hev
      rcases hev with h | h
      · exact interpCmd_events_interp dd s c ev h
      · exact ih _ ev h

theorem interpLists_events_interp (dd : DrawData) (s : InterpState) (ls : List DrawList) :
    ∀ ev ∈ (interpLists dd s ls).2, isInterpEvent ev = true := by
  induction ls generalizing s with
  | nil => intro ev hev; simp [interpLists] at hev
  | cons cl ls ih =>
      intro ev hev
      simp only [interpLists, interpList, List.mem_append] at hev
      rcases hev with h | h
      · exact interpCmds_events_interp dd s cl.commands ev h
      · exact ih _ ev h

theorem interpLists_countP_zero (dd : DrawData) (s : InterpState) (ls : List DrawList)
    (q : Event → Bool) (hq : ∀ ev, isInterpEvent ev = true → q ev = false) :
    (interpLists dd s ls).2.countP q = 0 :=
  List.countP_eq_zero.mpr fun ev hev => by
    simp [hq ev (interpLists_events_interp dd s ls ev hev)]

theorem interp_event_not_buildFrame (ev : Event) (h : isInterpEvent ev = true) :
    isBuildFrameEvent ev = false := by
  cases ev <;> simp_all [isInterpEvent, isBuildFrameEvent]

theorem interp_event_not_reconfig (ev : Event) (h : isInterpEvent ev = true) :
    isReconfigEvent ev = false := by
  cases ev <;> simp_all [isInterpEvent, isReconfigEvent]

/-- Pipeline state with nothing bound, used by the concrete frames below. -/
def pipe0 : PipelineState :=
  { viewport := none, render_target := false, shader_state := false,
    vtx_buffer_bound := false, idx_buffer_format := none, topology := none,
    vs_constant_buffers := false, ps_shader_resources := false, scissor := none }

/-- Empty geometry buffers. -/
def bufs0 : BuffersState := { mtx_buffer := none, vtx := [], idx := [] }

/-- An engine in its initial state. -/
def eng0 : RenderEngine := { display_size := (0, 0), pipeline := pipe0, buffers := bufs0 }

/-- An 800x600 window rectangle at the origin. -/
def rect0 : Rect := { left := 0, top := 0, right := 800, bottom := 600 }

/-- The clip rectangle `[0, 0, 100, 100]`. -/
def clip0 : ClipRect := { cx := 0, cy := 0, cw := ⟨100, 1⟩, ch := ⟨100, 1⟩ }

/-- A draw list with 4 vertices, 6 indices and one `Elements{6}` command. -/
def list1 : DrawList :=
  { vtx_buffer := [0, 1, 2, 3], idx_buffer := [0, 1, 2, 0, 2, 3],
    commands := [DrawCmd.Elements 6 clip0] }

/-- A frame with one such draw list and display size 800x600. -/
def frame1 : DrawData :=
  { display_pos := (0, 0), display_size := (⟨800, 1⟩, ⟨600, 1⟩), draw_lists := [list1] }

/-- A frame with two such draw lists. -/
def frame2 : DrawData :=
  { display_pos := (0, 0), display_size := (⟨800, 1⟩, ⟨600, 1⟩), draw_lists := [list1, list1] }

/-- A frame whose display size is degenerate (both dimensions zero). -/
def frameDeg : DrawData :=
  { display_pos := (0, 0), display_size := (0, 0), draw_lists := [] }

/-- C1: for every `render` call that returns success, the device pipeline
state after `render` returns equals the state captured immediately on entry:
the snapshot is taken before any device mutation (it is the first event of
the trace), that same snapshot is restored after the draw-command
interpretation loop (the restore is the last event), and so every binding,
viewport, scissor, shader and topology change made inside `render` is
undone; only the toolkit display size and the geometry-buffer contents may
differ. -/
theorem render_restores_pipeline_state (e : RenderEngine) (wr : Option Rect) (dd : DrawData)
    (h : (render e wr dd).1 = Except.ok ()) :
    (render e wr dd).2.1.pipeline = e.pipeline ∧
    (render e wr dd).2.2.head? = some Event.backup ∧
    (render e wr dd).2.2.getLast? = some Event.restoreBackup := by
  by_cases hc : dd.display_size.1 ≤ 0 ∧ dd.display_size.2 ≤ 0
  · simp [render, hc] at h
  · refine ⟨?_, ?_, ?_⟩
    · simp [render, hc, StateBackup.restore, StateBackup.backup]
    · simp [render, hc]
    · have hsplit : (render e wr dd).2.2
          = (Event.backup :: ((reconfigureSurface e wr).2 ++ Event.setShaderState ::
              Event.buildFrame ::
              (drawPhase { (reconfigureSurface e wr).1 with
                  pipeline := shaderProgramSetState (reconfigureSurface e wr).1.pipeline } dd).2))
            ++ [Event.restoreBackup] := by
        simp [render, hc]
      rw [hsplit, List.getLast?_concat]

/-- C1 witness: a successful call on a concrete frame. -/
theorem render_restores_pipeline_state_witness :
    (render eng0 (some rect0) frame1).1 = Except.ok () ∧
    (render eng0 (some rect0) frame1).2.1.pipeline = eng0.pipeline :=
  ⟨rfl, (render_restores_pipeline_state eng0 (some rect0) frame1 rfl).1⟩

/-- C2: falsified by the code. On the degenerate-display-size error exit
(`render_engine.rs` line 88) the snapshot captured at frame start is not
restored: the trace of the failing call contains no restore event, and the
pipeline state left behind differs from the entry state (the shader-program
install has not been undone). The spec calls this omission a defect and
requires capture to be paired with exactly one restore on every exit path. -/
theorem degenerate_exit_skips_restore :
    (render eng0 (some rect0) frameDeg).1 = Except.error "Insufficient display size" ∧
    (render eng0 (some rect0) frameDeg).2.2.countP isRestoreEvent = 0 ∧
    (render eng0 (some rect0) frameDeg).2.1.pipeline ≠ eng0.pipeline := by
  refine ⟨rfl, rfl, ?_⟩
  decide

/-- C3: `render` returns an error exactly when the built frame's display
size has both width and height non-positive (a conjunction, not a
disjunction); on that error no indexed draw call is issued, and in every
other case `render` returns success. -/
theorem render_error_iff_degenerate (e : RenderEngine) (wr : Option Rect) (dd : DrawData) :
    ((render e wr dd).1 = Except.error "Insufficient display size"
        ↔ (dd.display_size.1 ≤ 0 ∧ dd.display_size.2 ≤ 0)) ∧
    ((dd.display_size.1 ≤ 0 ∧ dd.display_size.2 ≤ 0) →
        (render e wr dd).2.2.countP isDrawIndexedEvent = 0) ∧
    (¬(dd.display_size.1 ≤ 0 ∧ dd.display_size.2 ≤ 0) →
        (render e wr dd).1 = Except.ok ()) := by
  by_cases hc : dd.display_size.1 ≤ 0 ∧ dd.display_size.2 ≤ 0
  · refine ⟨?_, fun _ => ?_, fun h => absurd hc h⟩
    · simp [render, hc]
    · cases wr <;>
        simp [render, reconfigureSurface, hc, isDrawIndexedEvent,
          List.countP_cons, List.countP_append]
  · refine ⟨?_, fun h => absurd h hc, fun _ => ?_⟩ <;> simp [render, hc]

/-- C3 witness: the degenerate frame is rejected with no draw issued, and a
non-degenerate frame succeeds. -/
theorem render_error_iff_degenerate_witness :
    (render eng0 (some rect0) frameDeg).1 = Except.error "Insufficient display size" ∧
    (render eng0 (some rect0) frameDeg).2.2.countP isDrawIndexedEvent = 0 ∧
    (render eng0 none frame1).1 = Except.ok () :=
  ⟨(render_error_iff_degenerate eng0 (some rect0) frameDeg).1.mpr (by decide),
   (render_error_iff_degenerate eng0 (some rect0) frameDeg).2.1 (by decide),
   (render_error_iff_degenerate eng0 none frame1).2.2 (by decide)⟩

/-- C4: offset accumulation. Interpreting a frame's draw lists from zero
offsets runs the lists after the first `k` from exactly the state reached by
the first `k` (so that state is the one in effect before interpreting list
`k+1`), and there the cumulative vertex offset equals the sum of the vertex
counts of the first `k` lists while the cumulative index offset equals the
sum of their index counts; moreover each `Elements` command advances the
index offset by its `count`, and each list advances the vertex offset by its
vertex count. -/
theorem offset_accumulation (dd : DrawData) (p : PipelineState) (ls : List DrawList) (k : Nat)
    (hwf : ∀ cl ∈ ls, listIdxAdvance cl = cl.idx_buffer.length) :
    interpLists dd ⟨p, 0, 0⟩ ls =
      ((interpLists dd (interpLists dd ⟨p, 0, 0⟩ (ls.take k)).1 (ls.drop k)).1,
       (interpLists dd ⟨p, 0, 0⟩ (ls.take k)).2
         ++ (interpLists dd (interpLists dd ⟨p, 0, 0⟩ (ls.take k)).1 (ls.drop k)).2) ∧
    (interpLists dd ⟨p, 0, 0⟩ (ls.take k)).1.vtxOff
        = ((ls.take k).map fun cl => cl.vtx_buffer.length).sum ∧
    (interpLists dd ⟨p, 0, 0⟩ (ls.take k)).1.idxOff
        = ((ls.take k).map fun cl => cl.idx_buffer.length).sum ∧
    (∀ s count clip,
        (interpCmd dd s (DrawCmd.Elements count clip)).1.idxOff = s.idxOff + count) ∧
    (∀ s cl, (interpList dd s cl).1.vtxOff = s.vtxOff + cl.vtx_buffer.length) := by
  refine ⟨?_, ?_, ?_, ?_, ?_⟩
  · conv_lhs => rw [← List.take_append_drop k ls]
    exact interpLists_append dd ⟨p, 0, 0⟩ (ls.take k) (ls.drop k)
  · simp [interpLists_vtxOff]
  · rw [interpLists_idxOff]
    have hmap : (ls.take k).map listIdxAdvance
        = (ls.take k).map fun cl => cl.idx_buffer.length :=
      List.map_congr_left fun cl hcl => hwf cl (List.take_subset k ls hcl)
    simp [hmap]
  · intro s count clip; simp [interpCmd]
  · exact fun s cl => interpList_vtxOff dd s cl

/-- C4 witness: the two-list scenario. Two draw lists of 4 vertices and 6
indices with one `Elements{6}` command each: the offsets in effect before
the second list are vertex 4 and index 6, and the second indexed draw of the
full `render` trace is issued with count 6, index offset 6, vertex offset 4. -/
theorem offset_accumulation_witness :
    (interpLists frame2 ⟨pipe0, 0, 0⟩ (frame2.draw_lists.take 1)).1.vtxOff
        = ((frame2.draw_lists.take 1).map fun cl => cl.vtx_buffer.length).sum ∧
    (interpLists frame2 ⟨pipe0, 0, 0⟩ (frame2.draw_lists.take 1)).1.idxOff
        = ((frame2.draw_lists.take 1).map fun cl => cl.idx_buffer.length).sum ∧
    (interpLists frame2 ⟨pipe0, 0, 0⟩ (frame2.draw_lists.take 1)).1.vtxOff = 4 ∧
    (interpLists frame2 ⟨pipe0, 0, 0⟩ (frame2.draw_lists.take 1)).1.idxOff = 6 ∧
    (render eng0 (some rect0) frame2).2.2.filter isDrawIndexedEvent
        = [Event.drawIndexed 6 0 0, Event.drawIndexed 6 6 4] :=
  ⟨(offset_accumulation frame2 pipe0 frame2.draw_lists 1 (by decide)).2.1,
   (offset_accumulation frame2 pipe0 frame2.draw_lists 1 (by decide)).2.2.1,
   rfl, rfl, rfl⟩

/-- C5: clip-rect translation. For an `Elements` command with clip rectangle
`[cx, cy, cw, ch]` occurring anywhere in a command sequence of a frame with
display position `[x, y]`, the interpreter emits, right where the command is
reached, a scissor-rectangle set to `[cx-x, cy-y, cw-x, ch-y]` (each
component truncated toward zero), followed by the shader-resource rebinding
and then the indexed draw; the scissor recorded in the pipeline state at
that draw is that same translated rectangle. -/
theorem clip_rect_translation (dd : DrawData) (s : InterpState) (cs1 cs2 : List DrawCmd)
    (count : Nat) (clip : ClipRect) :
    (interpCmds dd s (cs1 ++ DrawCmd.Elements count clip :: cs2)).2 =
      (interpCmds dd s cs1).2 ++
        (Event.rsSetScissorRects ((clip.cx.sub dd.display_pos.1).trunc)
            ((clip.cy.sub dd.display_pos.2).trunc)
            ((clip.cw.sub dd.display_pos.1).trunc)
            ((clip.ch.sub dd.display_pos.2).trunc) ::
          Event.setShaderResources ::
          Event.drawIndexed count (interpCmds dd s cs1).1.idxOff (interpCmds dd s cs1).1.vtxOff ::
          (interpCmds dd
            (interpCmd dd (interpCmds dd s cs1).1 (DrawCmd.Elements count clip)).1 cs2).2) ∧
    (interpCmd dd (interpCmds dd s cs1).1 (DrawCmd.Elements count clip)).1.pipeline.scissor =
      some ((clip.cx.sub dd.display_pos.1).trunc, (clip.cy.sub dd.display_pos.2).trunc,
            (clip.cw.sub dd.display_pos.1).trunc, (clip.ch.sub dd.display_pos.2).trunc) := by
  refine ⟨?_, by simp [interpCmd]⟩
  rw [interpCmds_append]
  simp [interpCmds, interpCmd]

/-- C6: surface reconfiguration. When the window rectangle is available,
`render` sets the toolkit display size to the rectangle's width and height,
normalizes the rectangle to origin zero and sets the device viewport and
render target from it (the trace opens with exactly these calls); when it is
unavailable, the display size is left unchanged and no display-size,
viewport or render-target call is made, the viewport and render-target
state are unchanged, and `render` proceeds with the previously configured
display size. -/
theorem window_rect_reconfiguration (e : RenderEngine) (dd : DrawData) (rect : Rect) :
    ((render e (some rect) dd).2.1.display_size
        = (Scalar.ofInt (rect.right - rect.left), Scalar.ofInt (rect.bottom - rect.top))) ∧
    ((render e (some rect) dd).2.2.take 6 =
      [Event.backup, Event.getWindowRect (some rect),
       Event.setDisplaySize (Scalar.ofInt (rect.right - rect.left))
         (Scalar.ofInt (rect.bottom - rect.top)),
       Event.setViewport
         { left := 0, top := 0, right := rect.right - rect.left,
           bottom := rect.bottom - rect.top },
       Event.setRenderTarget, Event.setShaderState]) ∧
    ((render e none dd).2.1.display_size = e.display_size) ∧
    ((render e none dd).2.1.pipeline.viewport = e.pipeline.viewport) ∧
    ((render e none dd).2.1.pipeline.render_target = e.pipeline.render_target) ∧
    ((render e none dd).2.2.countP isReconfigEvent = 0) := by
  by_cases hc : dd.display_size.1 ≤ 0 ∧ dd.display_size.2 ≤ 0
  · refine ⟨?_, ?_, ?_, ?_, ?_, ?_⟩ <;>
      simp [render, reconfigureSurface, drawPhase, hc, shaderProgramSetState,
        StateBackup.backup, StateBackup.restore, isReconfigEvent, List.countP_cons]
  · refine ⟨?_, ?_, ?_, ?_, ?_, ?_⟩ <;>
      simp [render, reconfigureSurface, drawPhase, hc, shaderProgramSetState,
        StateBackup.backup, StateBackup.restore, isReconfigEvent, List.countP_cons,
        List.countP_append, bindEvents,
        interpLists_countP_zero _ _ _ _ interp_event_not_reconfig]

/-- C7: for every `ResetRenderState` command, the interpreter reinstalls the
surface's default state (render target and viewport, with no window-rect
query: the two reinstall calls are the only events emitted) followed by the
shader pipeline's state, and leaves both the vertex and index offsets
unchanged. -/
theorem reset_render_state_interp (dd : DrawData) (s : InterpState) :
    interpCmd dd s DrawCmd.ResetRenderState =
      ({ pipeline := shaderProgramSetState (setupStateEffect dd s.pipeline),
         vtxOff := s.vtxOff, idxOff := s.idxOff },
       [Event.setupState, Event.setShaderState]) := by
  cases s
  rfl

/-- C8: `present` flips the swap chain with vertical-sync interval 1 (and
flags 0), and returns normally whether the underlying present succeeds or
fails: the failure is logged exactly once and never propagated to the
caller. -/
theorem present_logs_never_propagates (r : Except String Unit) :
    (present r).1 = () ∧
    (present r).2.head? = some (Event.presentFlip 1 0) ∧
    (present r).2.countP isLogErrorEvent = (if r.isOk then 0 else 1) := by
  cases r <;> simp [present, Except.isOk, Except.toBool, isLogErrorEvent, List.countP_cons]

/-- C9: on every `render` call the frame-building callback is invoked
exactly once, immediately after the surface reconfiguration and the shader
pipeline install; on a call that ends in the degenerate-display-size error
it has still been invoked (it is the last event before the early return),
so it runs before the display-size validation. -/
theorem build_frame_invoked_once (e : RenderEngine) (wr : Option Rect) (dd : DrawData) :
    (render e wr dd).2.2.countP isBuildFrameEvent = 1 ∧
    (render e wr dd).2.2.take ((reconfigureSurface e wr).2.length + 3)
        = Event.backup :: (reconfigureSurface e wr).2
            ++ [Event.setShaderState, Event.buildFrame] ∧
    ((dd.display_size.1 ≤ 0 ∧ dd.display_size.2 ≤ 0) →
        (render e wr dd).2.2.getLast? = some Event.buildFrame) := by
  by_cases hc : dd.display_size.1 ≤ 0 ∧ dd.display_size.2 ≤ 0
  · cases wr <;>
      refine ⟨?_, ?_, fun _ => ?_⟩ <;>
      simp [render, reconfigureSurface, hc, isBuildFrameEvent, List.countP_cons]
  · cases wr <;>
      refine ⟨?_, ?_, fun h => absurd h hc⟩ <;>
      simp [render, reconfigureSurface, drawPhase, hc, isBuildFrameEvent, List.countP_cons,
        List.countP_append, bindEvents,
        interpLists_countP_zero _ _ _ _ interp_event_not_buildFrame]

/-- C9 witness: the callback is still invoked on a call that ends in the
degenerate-display-size error. -/
theorem build_frame_invoked_once_witness :
    (render eng0 (some rect0) frameDeg).2.2.getLast? = some Event.buildFrame ∧
    (render eng0 (some rect0) frameDeg).2.2.countP isBuildFrameEvent = 1 :=
  ⟨(build_frame_invoked_once eng0 (some rect0) frameDeg).2.2 (by decide),
   (build_frame_invoked_once eng0 (some rect0) frameDeg).1⟩

/-- C10: on every `render` call that returns the degenerate-display-size
error, the geometry buffers are unchanged - neither the constant-buffer
write nor the vertex/index upload happened and no vertex, index, constant or
texture binding, scissor or draw call was issued - even though the shader
pipeline state, and (when the window rectangle was available) the display
size, viewport and render target, were already modified before the check. -/
theorem degenerate_error_preserves_buffers (e : RenderEngine) (wr : Option Rect) (dd : DrawData)
    (h : (render e wr dd).1 = Except.error "Insufficient display size") :
    (render e wr dd).2.1.buffers = e.buffers ∧
    (render e wr dd).2.2.countP isGeometryEvent = 0 ∧
    (render e wr dd).2.1.pipeline.shader_state = true ∧
    (∀ rect, wr = some rect →
      (render e wr dd).2.1.display_size
          = (Scalar.ofInt (rect.right - rect.left), Scalar.ofInt (rect.bottom - rect.top)) ∧
      (render e wr dd).2.1.pipeline.render_target = true ∧
      (render e wr dd).2.1.pipeline.viewport
          = some { left := 0, top := 0, right := rect.right - rect.left,
                   bottom := rect.bottom - rect.top }) := by
  by_cases hc : dd.display_size.1 ≤ 0 ∧ dd.display_size.2 ≤ 0
  · refine ⟨?_, ?_, ?_, fun rect hrect => ?_⟩
    · cases wr <;> simp [render, reconfigureSurface, hc, shaderProgramSetState]
    · cases wr <;>
        simp [render, reconfigureSurface, hc, isGeometryEvent, List.countP_cons]
    · cases wr <;> simp [render, reconfigureSurface, hc, shaderProgramSetState]
    · subst hrect
      refine ⟨?_, ?_, ?_⟩ <;>
        simp [render, reconfigureSurface, hc, shaderProgramSetState]
  · simp [render, hc] at h

/-- C10 witness: a degenerate frame after a successful window-rect query. -/
theorem degenerate_error_preserves_buffers_witness :
    (render eng0 (some rect0) frameDeg).2.1.buffers = eng0.buffers ∧
    (render eng0 (some rect0) frameDeg).2.2.countP isGeometryEvent = 0 ∧
    (render eng0 (some rect0) frameDeg).2.1.pipeline.render_target = true :=
  ⟨(degenerate_error_preserves_buffers eng0 (some rect0) frameDeg rfl).1,
   (degenerate_error_preserves_buffers eng0 (some rect0) frameDeg rfl).2.1,
   ((degenerate_error_preserves_buffers eng0 (some rect0) frameDeg rfl).2.2.2 rect0 rfl).2.1⟩

end ImguiDx11
